import Mathlib

/-!
Verification of the komorebi event-processing core (`WindowManager::process_event`
in src/komorebi/src/process_event.rs, plus the static configuration lists of
src/komorebi/src/main.rs) against its natural-language specification.

The model hierarchy (Window / Container / Workspace / Monitor / WindowManager)
and the helper operations that live in repository files outside the provided
sources (workspace.rs, window_manager.rs, windows_api.rs) are modelled from the
specification; each such definition carries a doc comment that starts
`Modelled from the spec:`. Everything in process_event.rs and main.rs is
translated directly. External side effects (directional resize commands,
forced layout updates, snapshot persistence) are recorded in an `Effect`
trace so that theorems can talk about what an event emitted as well as the
state it produced.
-/

deriving instance DecidableEq for Except

namespace Komorebi

/-- Rectangle as carried around by process_event.rs (komorebi_core::Rect).
The event code only ever combines the four fields componentwise, so they are
plain integers here. -/
structure Rect where
  left : Int
  top : Int
  right : Int
  bottom : Int
deriving DecidableEq, Repr

/-- A window: an opaque OS-assigned handle (spec 3, Window). -/
structure Window where
  hwnd : Int
deriving DecidableEq, Repr

/-- A container: an ordered group of windows sharing one tiling slot (spec 3). -/
structure Container where
  windows : List Window
deriving DecidableEq, Repr

/-- A workspace: ordered containers, floating windows exempt from tiling, the
last computed layout and the focused-container index (spec 3). -/
structure Workspace where
  containers : List Container
  floating_windows : List Window
  latest_layout : List Rect
  focused_container_idx : Nat
deriving DecidableEq, Repr

/-- A monitor: its work-area rectangle, its workspaces and the
focused-workspace index (spec 3). -/
structure Monitor where
  work_area_size : Rect
  workspaces : List Workspace
  focused_workspace_idx : Nat
deriving DecidableEq, Repr

/-- The window manager: ordered monitors, the focused-monitor index and the
pause flag (spec 3). The inbound channel handle is out of scope here. -/
structure WindowManager where
  monitors : List Monitor
  focused_monitor_idx : Nat
  is_paused : Bool
deriving DecidableEq, Repr

/-- The closed event vocabulary (window_manager_event.rs as used by
process_event.rs); each variant carries the affected window. The raw OS
signal payload is irrelevant to process_event and omitted. -/
inductive WindowManagerEvent where
  | FocusChange (window : Window)
  | Show (window : Window)
  | Hide (window : Window)
  | Minimize (window : Window)
  | Destroy (window : Window)
  | MoveResizeEnd (window : Window)
  | MouseCapture (window : Window)
deriving DecidableEq, Repr

/-- komorebi_core::OperationDirection as used by the resize arm. -/
inductive OperationDirection where
  | Left
  | Right
  | Up
  | Down
deriving DecidableEq, Repr

/-- komorebi_core::Sizing as used by the resize arm. -/
inductive Sizing where
  | Increase
  | Decrease
deriving DecidableEq, Repr

/-- Error taxonomy surfaced by process_event (spec 4.1): each `?` in the Rust
source that can abort the event maps to one of these. -/
inductive WMError where
  | noOwningMonitor
  | monitorIdxOutOfRange
  | workspaceIdxOutOfRange
  | noFocusedMonitor
  | noFocusedWorkspace
  | noLatestLayout
  | geometryQueryFailed
  | exeQueryFailed
  | windowNotFound
deriving DecidableEq, Repr

/-- Externally visible operations process_event hands to collaborators, in
emission order: a directional resize command (self.resize_window), a layout
update of the focused workspace with its force flag
(self.update_focused_workspace), and the known-handles snapshot handed to
persistence (the komorebi.hwnd.json write). -/
inductive Effect where
  | updateFocusedWorkspace (force : Bool)
  | resizeWindow (edge : OperationDirection) (sizing : Sizing) (step : Int)
  | persist (hwnds : List Int)
deriving DecidableEq, Repr

/-- Modelled from the spec: the platform and configuration collaborators
(spec 6 and 9). windows_api.rs, window.rs and the layout algorithm of
workspace.rs are not among the provided sources, so live queries are an
environment of pure functions: window validity (`IsWindow`), the live window
rectangle, the owning executable name, the monitor a window resolves to
(window_manager.rs monitor_idx_from_window), the deterministic layout
function of (work area, container count) (spec 4.2), the pointer-to-slot map
(workspace.rs container_idx_from_current_point), and the two global lists of
main.rs (MULTI_WINDOW_EXES, HIDDEN_HWNDS). -/
structure Env where
  is_window : Int → Bool
  window_rect : Int → Option Rect
  exe : Int → Option String
  monitor_from_window : Int → Option Nat
  layout : Rect → Nat → List Rect
  container_idx_from_current_point : Workspace → Option Nat
  multi_window_exes : List String
  hidden_hwnds : List Int

/-- Initial contents of the MULTI_WINDOW_EXES global (main.rs lines 49-56). -/
def default_multi_window_exes : List String :=
  ["explorer.exe", "firefox.exe", "chrome.exe", "idea64.exe",
   "ApplicationFrameHost.exe", "steam.exe"]

/-- A container contains a handle when one of its windows carries it. -/
def Container.contains_window (c : Container) (hwnd : Int) : Bool :=
  c.windows.any fun w => w.hwnd == hwnd

/-- Workspace::contains_window as process_event uses it: containment in the
tiled containers (floating windows are checked separately). -/
def Workspace.contains_window (ws : Workspace) (hwnd : Int) : Bool :=
  ws.containers.any fun c => c.contains_window hwnd

/-- Modelled from the spec: Workspace::reap_orphans (workspace.rs is not among
the sources). Removes Windows whose platform handle is no longer valid and
then Containers left with zero Windows; returns the workspace together with
(windows removed, containers removed); pure bookkeeping, no geometry
(spec 4.2). -/
def Workspace.reap_orphans (env : Env) (ws : Workspace) : Workspace × Nat × Nat :=
  let pruned := ws.containers.map fun c =>
    { c with windows := c.windows.filter fun w => env.is_window w.hwnd }
  let kept := pruned.filter fun c => !c.windows.isEmpty
  ({ ws with containers := kept },
   (ws.containers.map fun c => c.windows.length).sum -
     (pruned.map fun c => c.windows.length).sum,
   pruned.length - kept.length)

/-- Modelled from the spec: Workspace::update recomputes latest_layout from
the work area and the container count with the deterministic layout algorithm
(spec 4.2); the per-window geometry application is an external effect and not
model state. -/
def Workspace.update (env : Env) (work_area : Rect) (ws : Workspace) : Workspace :=
  { ws with latest_layout := env.layout work_area ws.containers.length }

/-- One workspace step of the reaping pass (process_event.rs lines 66-78):
reap, and update the workspace when anything was reaped. -/
def Workspace.reap_and_update (env : Env) (work_area : Rect) (ws : Workspace) :
    Workspace :=
  let r := ws.reap_orphans env
  if 0 < r.2.1 || 0 < r.2.2 then r.1.update env work_area else r.1

/-- The reaping pass over one monitor (process_event.rs lines 64-79). -/
def Monitor.reap_all (env : Env) (m : Monitor) : Monitor :=
  { m with workspaces := m.workspaces.map (Workspace.reap_and_update env m.work_area_size) }

/-- The reaping pass over every monitor (process_event.rs lines 64-79). -/
def WindowManager.reap_all (env : Env) (wm : WindowManager) : WindowManager :=
  { wm with monitors := wm.monitors.map (Monitor.reap_all env) }

/-- The focused monitor, when the index is in range. -/
def WindowManager.focused_monitor (wm : WindowManager) : Option Monitor :=
  wm.monitors[wm.focused_monitor_idx]?

/-- The focused workspace of a monitor, when the index is in range. -/
def Monitor.focused_workspace (m : Monitor) : Option Workspace :=
  m.workspaces[m.focused_workspace_idx]?

/-- The focused workspace of the focused monitor. -/
def WindowManager.focused_workspace (wm : WindowManager) : Option Workspace :=
  wm.focused_monitor.bind Monitor.focused_workspace

/-- Replace the focused workspace (the effect of mutating through
focused_workspace_mut); identity when an index is out of range. -/
def WindowManager.set_focused_workspace (wm : WindowManager) (ws : Workspace) :
    WindowManager :=
  match wm.monitors[wm.focused_monitor_idx]? with
  | none => wm
  | some m =>
      let m' := { m with workspaces := m.workspaces.set m.focused_workspace_idx ws }
      { wm with monitors := wm.monitors.set wm.focused_monitor_idx m' }

/-- Modelled from the spec: WindowManager::focus_monitor makes the given
monitor the focused one (spec 4.1 step 2), failing when the index is out of
range (spec 4.3's index discipline). -/
def WindowManager.focus_monitor (wm : WindowManager) (idx : Nat) :
    Except WMError WindowManager :=
  if idx < wm.monitors.length then .ok { wm with focused_monitor_idx := idx }
  else .error .monitorIdxOutOfRange

/-- Modelled from the spec: WindowManager::focus_workspace switches the
focused monitor's focused-workspace index, failing with IndexOutOfRange when
the index is beyond the workspace list (spec 4.3). -/
def WindowManager.focus_workspace (wm : WindowManager) (idx : Nat) :
    Except WMError WindowManager :=
  match wm.monitors[wm.focused_monitor_idx]? with
  | none => .error .noFocusedMonitor
  | some m =>
      if idx < m.workspaces.length then
        let m' := { m with focused_workspace_idx := idx }
        .ok { wm with monitors := wm.monitors.set wm.focused_monitor_idx m' }
      else .error .workspaceIdxOutOfRange

/-- Modelled from the spec: Workspace::remove_window removes the window with
the given handle from the containers; a Container whose last Window is removed
is destroyed (spec 3, Container lifecycle). -/
def Workspace.remove_window (ws : Workspace) (hwnd : Int) : Workspace :=
  let pruned := ws.containers.map fun c =>
    { c with windows := c.windows.filter fun w => w.hwnd != hwnd }
  { ws with containers := pruned.filter fun c => !c.windows.isEmpty }

/-- Modelled from the spec: Workspace::focus_container_by_window sets the
Container containing the window as the focused Container (spec 4.1,
FocusChange), failing when no container holds it (expected-absent, spec 7a). -/
def Workspace.focus_container_by_window (ws : Workspace) (hwnd : Int) :
    Except WMError Workspace :=
  match ws.containers.findIdx? fun c => c.contains_window hwnd with
  | some idx => .ok { ws with focused_container_idx := idx }
  | none => .error .windowNotFound

/-- Modelled from the spec: Workspace::new_container_for_window creates a new
Container holding the window (spec 4.1, Show; spec 8's scenario places the
newer window in the later slot). -/
def Workspace.new_container_for_window (ws : Workspace) (w : Window) : Workspace :=
  { ws with containers := ws.containers ++ [⟨[w]⟩] }

/-- Modelled from the spec: Workspace::swap_containers positionally exchanges
two Container slots (spec 4.2); identity when an index is out of range. -/
def Workspace.swap_containers (ws : Workspace) (i j : Nat) : Workspace :=
  match ws.containers[i]?, ws.containers[j]? with
  | some ci, some cj => { ws with containers := (ws.containers.set i cj).set j ci }
  | _, _ => ws

/-- Modelled from the spec: WindowManager::update_focused_workspace
(window_manager.rs is not among the sources). The flag selects a hard update
(always recompute and reapply) against a soft one (recompute only when the
layout inputs changed since the last computation, observable in the model as
latest_layout disagreeing in length with the container list) - spec 4.2's
soft/hard distinction, matched to the flags at process_event.rs's call sites
(true at line 195, the spec's hard snap-back update; false everywhere else). -/
def WindowManager.update_focused_workspace (env : Env) (force : Bool)
    (wm : WindowManager) : Except WMError WindowManager :=
  match wm.focused_monitor with
  | none => .error .noFocusedWorkspace
  | some m =>
      match m.focused_workspace with
      | none => .error .noFocusedWorkspace
      | some ws =>
          let ws' := if force || ws.latest_layout.length != ws.containers.length
                     then ws.update env m.work_area_size else ws
          .ok (wm.set_focused_workspace ws')

/-- The known-handles snapshot (process_event.rs lines 241-250): every window
handle across all monitors, workspaces and containers, in order. -/
def WindowManager.known_hwnds (wm : WindowManager) : List Int :=
  wm.monitors.foldr (fun m acc =>
    m.workspaces.foldr (fun ws acc2 =>
      ws.containers.foldr (fun c acc3 => c.windows.map Window.hwnd ++ acc3) acc2) acc) []

/-- The fixed invisible-border inset (process_event.rs lines 166-171). -/
def invisible_border : Rect := { left := 12, top := 0, right := 24, bottom := 12 }

/-- The invisible-border adjustment (process_event.rs lines 173-177): the
inset is added to left and top and subtracted from right and bottom. -/
def adjust_for_border (r : Rect) : Rect :=
  { left := r.left + invisible_border.left,
    top := r.top + invisible_border.top,
    right := r.right - invisible_border.right,
    bottom := r.bottom - invisible_border.bottom }

/-- The per-edge drag delta (process_event.rs lines 179-184). -/
def resize_delta (oldPos newPos : Rect) : Rect :=
  { left := newPos.left - oldPos.left,
    top := newPos.top - oldPos.top,
    right := newPos.right - oldPos.right,
    bottom := newPos.bottom - oldPos.bottom }

/-- Move-vs-resize classification (process_event.rs line 186): a move is a
delta whose right and bottom components are zero. -/
def is_move (resize : Rect) : Bool := resize.right == 0 && resize.bottom == 0

/-- The resize_op macro (process_event.rs lines 201-212): double the
coordinate, test the doubled value's sign with the per-edge comparator
(`gt = true` stands for the > 0 comparison, `gt = false` for < 0); a true
comparison gives Decrease, false gives Increase; the magnitude is the
absolute doubled coordinate. -/
def resize_op (coordinate : Int) (gt : Bool) (direction : OperationDirection) :
    OperationDirection × Sizing × Int :=
  let adjusted := coordinate * 2
  let sizing := if (if gt then 0 < adjusted else adjusted < 0)
                then Sizing.Decrease else Sizing.Increase
  (direction, sizing, (adjusted.natAbs : Int))

/-- The resize operations a classified resize emits (process_event.rs lines
214-228): left and top whenever non-zero, right only when left is zero,
bottom only when top is zero. -/
def mouse_resize_ops (resize : Rect) : List (OperationDirection × Sizing × Int) :=
  (if resize.left != 0 then [resize_op resize.left true .Left] else []) ++
  (if resize.top != 0 then [resize_op resize.top true .Up] else []) ++
  (if resize.right != 0 && resize.left == 0 then [resize_op resize.right false .Right] else []) ++
  (if resize.bottom != 0 && resize.top == 0 then [resize_op resize.bottom false .Down] else [])

/-- Whether the event carries the MouseCapture tag (the matches! test of
process_event.rs line 81). -/
def WindowManagerEvent.is_mouse_capture : WindowManagerEvent → Bool
  | .MouseCapture _ => true
  | _ => false

/-- The focus-resync step (process_event.rs lines 50-62): for FocusChange,
Show and MoveResizeEnd resolve the monitor associated with the window and
focus it; the `?` on the resolution aborts the event with NoOwningMonitor
("it may have already been destroyed"). All other events skip the step. -/
def focus_resync (env : Env) (event : WindowManagerEvent) (wm : WindowManager) :
    Except WMError WindowManager :=
  match event with
  | .FocusChange w | .Show w | .MoveResizeEnd w =>
      match env.monitor_from_window w.hwnd with
      | none => .error .noOwningMonitor
      | some idx => wm.focus_monitor idx
  | _ => .ok wm

/-- The Minimize/Destroy arm (process_event.rs lines 87-90): remove the
window from the focused workspace, then a soft update. -/
def dispatch_remove (env : Env) (w : Window) (wm : WindowManager) :
    Except WMError (WindowManager × List Effect × Bool) :=
  match wm.focused_workspace with
  | none => .error .noFocusedWorkspace
  | some ws =>
      Except.map (fun wm' => (wm', [Effect.updateFocusedWorkspace false], false))
        ((wm.set_focused_workspace (ws.remove_window w.hwnd)).update_focused_workspace env false)

/-- The Hide arm (process_event.rs lines 92-103): remove exactly when the
window is no longer a valid OS window or its executable is one of the known
multi-window applications, and the handle was not programmatically hidden by
this process; the executable query (and its `?`) is reached only when the
window is still valid, mirroring the Rust short-circuit. -/
def dispatch_hide (env : Env) (w : Window) (wm : WindowManager) :
    Except WMError (WindowManager × List Effect × Bool) :=
  match (if env.is_window w.hwnd then
           (env.exe w.hwnd).map fun e => env.multi_window_exes.contains e
         else some true) with
  | none => .error .exeQueryFailed
  | some cond =>
      if cond && !(env.hidden_hwnds.contains w.hwnd) then
        match wm.focused_workspace with
        | none => .error .noFocusedWorkspace
        | some ws =>
            Except.map (fun wm' => (wm', [Effect.updateFocusedWorkspace false], false))
              ((wm.set_focused_workspace (ws.remove_window w.hwnd)).update_focused_workspace env false)
      else .ok (wm, [], false)

/-- The FocusChange arm (process_event.rs lines 104-116): a floating window
short-circuits the event (the Ok return at line 111, which also skips the
snapshot); otherwise the container holding the window becomes focused. -/
def dispatch_focus_change (w : Window) (wm : WindowManager) :
    Except WMError (WindowManager × List Effect × Bool) :=
  match wm.focused_workspace with
  | none => .error .noFocusedWorkspace
  | some ws =>
      if ws.floating_windows.any fun fw => fw.hwnd == w.hwnd then
        .ok (wm, [], true)
      else
        match ws.focus_container_by_window w.hwnd with
        | .error e => .error e
        | .ok ws' => .ok (wm.set_focused_workspace ws', [], false)

/-- The Show arm's search (process_event.rs lines 118-125): scan every
monitor's every workspace for the window; a later hit overwrites an earlier
one. -/
def WindowManager.show_switch_to (wm : WindowManager) (hwnd : Int) :
    Option (Nat × Nat) :=
  wm.monitors.enum.foldl (fun acc mi =>
    mi.2.workspaces.enum.foldl (fun acc2 wj =>
      if wj.2.contains_window hwnd then some (mi.1, wj.1) else acc2) acc) none

/-- The Show arm's focus-switch test (process_event.rs lines 127-139): when a
workspace already holds the window, switch to it - but only when its monitor
index differs from the focused one AND its workspace index differs from the
focused monitor's focused-workspace index; `some wm` means the arm returned
early with the switched state. -/
def show_switch_result (w : Window) (wm : WindowManager) :
    Except WMError (Option WindowManager) :=
  match wm.show_switch_to w.hwnd with
  | none => .ok none
  | some ij =>
      if wm.focused_monitor_idx ≠ ij.1 then
        match wm.focused_monitor with
        | none => .error .noFocusedMonitor
        | some m =>
            if m.focused_workspace_idx ≠ ij.2 then
              match wm.focus_monitor ij.1 with
              | .error e => .error e
              | .ok wm1 =>
                  match wm1.focus_workspace ij.2 with
                  | .error e => .error e
                  | .ok wm2 => .ok (some wm2)
            else .ok none
      else .ok none

/-- The Show arm (process_event.rs lines 117-147): a successful focus switch
returns early (skipping the snapshot); otherwise, when the focused workspace
has no containers or does not yet contain the window, a new container is
created for it and the workspace soft-updated. -/
def dispatch_show (env : Env) (w : Window) (wm : WindowManager) :
    Except WMError (WindowManager × List Effect × Bool) :=
  match show_switch_result w wm with
  | .error e => .error e
  | .ok (some wm2) => .ok (wm2, [], true)
  | .ok none =>
      match wm.focused_workspace with
      | none => .error .noFocusedWorkspace
      | some ws =>
          if ws.containers.isEmpty || !ws.contains_window w.hwnd then
            Except.map (fun wm' => (wm', [Effect.updateFocusedWorkspace false], false))
              ((wm.set_focused_workspace (ws.new_container_for_window w)).update_focused_workspace env false)
          else .ok (wm, [], false)

/-- The MoveResizeEnd arm (process_event.rs lines 148-236): floating windows
short-circuit; otherwise the latest-layout rectangle of the focused container
is compared against the live, border-adjusted rectangle, a zero right/bottom
delta is handled as a move (swap with the slot under the pointer and
soft-update, or hard-update when no slot matches) and anything else as a
resize (one directional resize command per honored edge, then soft-update).
The resize_window mutator lives in window_manager.rs, outside the provided
sources; its invocations are recorded as effects. -/
def dispatch_move_resize_end (env : Env) (w : Window) (wm : WindowManager) :
    Except WMError (WindowManager × List Effect × Bool) :=
  match wm.focused_workspace with
  | none => .error .noFocusedWorkspace
  | some ws =>
      if ws.floating_windows.any fun fw => fw.hwnd == w.hwnd then
        .ok (wm, [], true)
      else
        match ws.latest_layout[ws.focused_container_idx]? with
        | none => .error .noLatestLayout
        | some old_position =>
            match env.window_rect w.hwnd with
            | none => .error .geometryQueryFailed
            | some raw =>
                let new_position := adjust_for_border raw
                let resize := resize_delta old_position new_position
                if is_move resize then
                  match env.container_idx_from_current_point ws with
                  | some target_idx =>
                      Except.map (fun wm' => (wm', [Effect.updateFocusedWorkspace false], false))
                        ((wm.set_focused_workspace
                            (ws.swap_containers ws.focused_container_idx target_idx)).update_focused_workspace env false)
                  | none =>
                      Except.map (fun wm' => (wm', [Effect.updateFocusedWorkspace true], false))
                        (wm.update_focused_workspace env true)
                else
                  let effs := (mouse_resize_ops resize).map fun op =>
                    Effect.resizeWindow op.1 op.2.1 op.2.2
                  Except.map (fun wm' => (wm', effs ++ [Effect.updateFocusedWorkspace false], false))
                    (wm.update_focused_workspace env false)

/-- The dispatch on event kind (process_event.rs lines 86-238). The Bool of
the result records whether the arm returned early (skipping the snapshot).
The MouseCapture arm here is the no-op at line 237; in process_event it is
unreachable because line 81 returns first. -/
def dispatch (env : Env) (event : WindowManagerEvent) (wm : WindowManager) :
    Except WMError (WindowManager × List Effect × Bool) :=
  match event with
  | .Minimize w | .Destroy w => dispatch_remove env w wm
  | .Hide w => dispatch_hide env w wm
  | .FocusChange w => dispatch_focus_change w wm
  | .Show w => dispatch_show env w wm
  | .MoveResizeEnd w => dispatch_move_resize_end env w wm
  | .MouseCapture _ => .ok (wm, [], false)

/-- Steps after the reaping pass (process_event.rs lines 81-262): MouseCapture
stops right after reaping ("only reaping orphans for mouse capture event");
otherwise the event is dispatched, and unless the arm returned early, the
known-handles snapshot of the resulting model is handed to persistence. -/
def dispatch_phase (env : Env) (event : WindowManagerEvent) (wm : WindowManager) :
    Except WMError (WindowManager × List Effect) :=
  if event.is_mouse_capture then .ok (wm, [])
  else
    Except.map (fun r =>
      if r.2.2 then (r.1, r.2.1)
      else (r.1, r.2.1 ++ [Effect.persist r.1.known_hwnds])) (dispatch env event wm)

/-- WindowManager::process_event (process_event.rs lines 44-263): drop the
event while paused; focus-resync; reap orphans everywhere; then dispatch and
persist the snapshot. -/
def WindowManager.process_event (env : Env) (event : WindowManagerEvent)
    (wm : WindowManager) : Except WMError (WindowManager × List Effect) :=
  if wm.is_paused then .ok (wm, [])
  else
    match focus_resync env event wm with
    | .error e => .error e
    | .ok wm1 => dispatch_phase env event (wm1.reap_all env)

/-- A container that is no orphan: it has windows and every one of them is
still a valid platform window. -/
def Container.valid_nonempty (env : Env) (c : Container) : Bool :=
  !c.windows.isEmpty && c.windows.all fun w => env.is_window w.hwnd

/-- A model with no orphan left anywhere (the post-state of the reaping
pass). -/
def WindowManager.orphan_free (env : Env) (wm : WindowManager) : Bool :=
  wm.monitors.all fun m => m.workspaces.all fun ws =>
    ws.containers.all fun c => c.valid_nonempty env

/-- Whether an effect trace hands a snapshot to persistence. -/
def has_persist_effect (effs : List Effect) : Bool :=
  effs.any fun e => match e with
    | .persist _ => true
    | _ => false

/-- The drag delta of the edge a direction stands for. -/
def Rect.edge_delta (r : Rect) : OperationDirection → Int
  | .Left => r.left
  | .Up => r.top
  | .Right => r.right
  | .Down => r.bottom

/-! Concrete fixtures for the counterexamples and witnesses below. -/

/-- A zero rectangle, used as the layout algorithm's slot in the fixtures. -/
def rect0 : Rect := { left := 0, top := 0, right := 0, bottom := 0 }

/-- A concrete work area for the fixture monitors. -/
def work_area0 : Rect := { left := 0, top := 0, right := 1920, bottom := 1080 }

/-- A baseline concrete environment: every handle valid, no monitor
resolution, a layout algorithm answering one zero slot per container, and the
initial global lists of main.rs. -/
def base_env : Env :=
  { is_window := fun _ => true
    window_rect := fun _ => none
    exe := fun _ => none
    monitor_from_window := fun _ => none
    layout := fun _ n => List.replicate n rect0
    container_idx_from_current_point := fun _ => none
    multi_window_exes := default_multi_window_exes
    hidden_hwnds := [] }

/-- The baseline environment with every window resolving to monitor 0. -/
def env_resolving : Env := { base_env with monitor_from_window := fun _ => some 0 }

/-- A workspace with no containers, no floats, no layout. -/
def empty_workspace : Workspace :=
  { containers := [], floating_windows := [], latest_layout := [],
    focused_container_idx := 0 }

/-- A workspace holding the given containers with the given layout. -/
def workspace_of (cs : List Container) (layout : List Rect) : Workspace :=
  { containers := cs, floating_windows := [], latest_layout := layout,
    focused_container_idx := 0 }

/-- A monitor over the fixture work area, focused on workspace 0. -/
def monitor_of (wss : List Workspace) : Monitor :=
  { work_area_size := work_area0, workspaces := wss, focused_workspace_idx := 0 }

/-- An unpaused manager focused on monitor 0. -/
def manager_of (ms : List Monitor) : WindowManager :=
  { monitors := ms, focused_monitor_idx := 0, is_paused := false }

/-- C1 fixture: one workspace holding one empty (orphan) container. -/
def wm_orphan : WindowManager := manager_of [monitor_of [workspace_of [⟨[]⟩] []]]

/-- C2 fixture: one empty workspace, ready to receive a shown window. -/
def wm_empty : WindowManager := manager_of [monitor_of [empty_workspace]]

/-- C3 fixture: a single monitor whose second workspace already holds window
7 while workspace 0 is focused. -/
def wm_same_monitor : WindowManager :=
  manager_of [monitor_of [empty_workspace, workspace_of [⟨[⟨7⟩]⟩] [rect0]]]

/-- C3 witness fixture: two monitors, with window 9 held by workspace 1 of
monitor 1 while monitor 0 / workspace 0 is focused. -/
def wm_other_monitor : WindowManager :=
  manager_of [monitor_of [empty_workspace],
              monitor_of [empty_workspace, workspace_of [⟨[⟨9⟩]⟩] [rect0]]]

/-- A manager tracking exactly one window with the given handle. -/
def wm_single (h : Int) : WindowManager :=
  manager_of [monitor_of [workspace_of [⟨[⟨h⟩]⟩] [rect0]]]

/-- C4 fixture: window 9 is no longer a valid OS window, reports a
multi-window executable, and its handle sits in the programmatic-hide
allow-list. -/
def env_hide_allowlisted : Env :=
  { base_env with is_window := fun h => !(h == 9)
                  exe := fun _ => some "firefox.exe"
                  hidden_hwnds := [9] }

/-- C4 witness fixture: window 3 is valid, reports a multi-window executable
and is not allow-listed. -/
def env_hide_firefox : Env := { base_env with exe := fun _ => some "firefox.exe" }

/-- C7 fixture: the live rectangle of every window is the spec's post-drag
raw rectangle, and the latest layout holds the pre-drag rectangle. -/
def env_drag : Env :=
  { env_resolving with
      window_rect := fun _ => some { left := 12, top := 0, right := 124, bottom := 112 } }

/-- C7 fixture: one container holding window 11, its layout slot the
pre-drag rectangle. -/
def wm_drag : WindowManager :=
  manager_of [monitor_of
    [workspace_of [⟨[⟨11⟩]⟩] [{ left := 0, top := 0, right := 100, bottom := 100 }]]]

/-- C6 fixture: a paused manager. -/
def wm_paused : WindowManager := { wm_single 1 with is_paused := true }

/-- Whether a direction is horizontal (Left or Right). -/
def direction_horizontal : OperationDirection → Bool
  | .Left | .Right => true
  | _ => false

/-- Whether a direction is vertical (Up or Down). -/
def direction_vertical : OperationDirection → Bool
  | .Up | .Down => true
  | _ => false

/-! Helper lemmas. -/

/-- The containers surviving the reap-and-update step of one workspace: the
invalid windows are filtered out of each container and the containers left
empty are dropped (the layout update touches only latest_layout). -/
theorem reap_and_update_containers (env : Env) (wa : Rect) (ws : Workspace) :
    (ws.reap_and_update env wa).containers =
      ((ws.containers.map fun c =>
          { c with windows := c.windows.filter fun w => env.is_window w.hwnd }).filter
        fun c => !c.windows.isEmpty) := by
  simp only [Workspace.reap_and_update, Workspace.reap_orphans, Workspace.update]
  split <;> rfl

/-- Filtering invalid windows and then empty containers leaves only valid,
non-empty containers. -/
theorem filter_map_valid (env : Env) (cs : List Container) :
    ((cs.map fun c =>
        { c with windows := c.windows.filter fun w => env.is_window w.hwnd }).filter
      fun c => !c.windows.isEmpty).all (Container.valid_nonempty env) = true := by
  rw [List.all_eq_true]
  intro c hc
  rw [List.mem_filter] at hc
  obtain ⟨hmem, hne⟩ := hc
  rw [List.mem_map] at hmem
  obtain ⟨c0, _, rfl⟩ := hmem
  simp only [Container.valid_nonempty, Bool.and_eq_true]
  refine ⟨hne, ?_⟩
  rw [List.all_eq_true]
  intro w hw
  exact (List.mem_filter.mp hw).2

/-- After the reaping pass no orphan is left anywhere in the model. -/
theorem reap_all_orphan_free (env : Env) (wm : WindowManager) :
    (wm.reap_all env).orphan_free env = true := by
  simp only [WindowManager.reap_all, WindowManager.orphan_free,
    List.all_eq_true, List.mem_map]
  rintro m ⟨m0, hm0, rfl⟩
  simp only [Monitor.reap_all, List.all_eq_true, List.mem_map]
  rintro ws ⟨ws0, hws0, rfl⟩
  rw [reap_and_update_containers]
  exact List.all_eq_true.mp (filter_map_valid env ws0.containers)

/-! Claim theorems. -/

/-- Claim C1 counterexample: a FocusChange event whose window resolves to no
owning monitor aborts with NoOwningMonitor before the reaping pass, leaving
the orphan container in place - the claim says reaping still runs for such
events. -/
theorem resync_failure_skips_reaping_cex :
    WindowManager.process_event base_env (.FocusChange ⟨7⟩) wm_orphan =
      .error .noOwningMonitor ∧
    wm_orphan.orphan_free base_env = false := by decide

/-- Claim C1 (amended): orphan reaping runs for every accepted event whose
focus-resync step succeeds - which is every Hide/Minimize/Destroy/MouseCapture
event, and every FocusChange/Show/MoveResizeEnd event whose window resolves
to an owning monitor. The rest of processing then acts on the reaped model,
and that model is orphan-free. When resolution fails, process_event returns
NoOwningMonitor before reaping (see the counterexample). -/
theorem reaping_conditional_on_resync (env : Env) (event : WindowManagerEvent)
    (wm wm1 : WindowManager) (hp : wm.is_paused = false)
    (hr : focus_resync env event wm = .ok wm1) :
    WindowManager.process_event env event wm =
      dispatch_phase env event (wm1.reap_all env) ∧
    (wm1.reap_all env).orphan_free env = true := by
  refine ⟨?_, reap_all_orphan_free env wm1⟩
  simp [WindowManager.process_event, hp, hr]

/-- Claim C1 witness: a Destroy event (whose resync step always succeeds) on
the single-window fixture. -/
theorem reaping_conditional_on_resync_witness :
    WindowManager.process_event base_env (.Destroy ⟨1⟩) (wm_single 1) =
      dispatch_phase base_env (.Destroy ⟨1⟩) ((wm_single 1).reap_all base_env) ∧
    ((wm_single 1).reap_all base_env).orphan_free base_env = true :=
  reaping_conditional_on_resync base_env (.Destroy ⟨1⟩) (wm_single 1) (wm_single 1)
    rfl rfl

/-- Claim C2 counterexample: a Show event inserting window 5 into an empty
focused workspace emits updateFocusedWorkspace with force = false - a soft
update, where the claim demands the hard (force = true) one. -/
theorem show_insert_not_hard_cex :
    (WindowManager.process_event env_resolving (.Show ⟨5⟩) wm_empty).map
      (fun r => r.2) =
      .ok [Effect.updateFocusedWorkspace false, Effect.persist [5]] ∧
    Effect.updateFocusedWorkspace true ∉
      [Effect.updateFocusedWorkspace false, Effect.persist [5]] := by decide

/-- Claim C2 (amended): when the focused workspace has no containers or does
not yet contain the shown window (and no focus switch fired), the Show arm
creates a new container holding the window and performs a soft update
(update_focused_workspace with force = false): the layout is still recomputed
because the container count just changed, but reapplication is not forced. -/
theorem show_insert_soft_update (env : Env) (w : Window) (wm : WindowManager)
    (ws : Workspace) (hws : wm.focused_workspace = some ws)
    (hsw : wm.show_switch_to w.hwnd = none)
    (hins : (ws.containers.isEmpty || !ws.contains_window w.hwnd) = true) :
    dispatch_show env w wm =
      Except.map (fun wm' => (wm', [Effect.updateFocusedWorkspace false], false))
        ((wm.set_focused_workspace
            (ws.new_container_for_window w)).update_focused_workspace env false) := by
  simp [dispatch_show, show_switch_result, hsw, hws, hins]

/-- Claim C2 witness: showing window 5 over the empty-workspace fixture. -/
theorem show_insert_soft_update_witness :
    dispatch_show env_resolving ⟨5⟩ wm_empty =
      Except.map (fun wm' => (wm', [Effect.updateFocusedWorkspace false], false))
        ((wm_empty.set_focused_workspace
            (empty_workspace.new_container_for_window ⟨5⟩)).update_focused_workspace
          env_resolving false) :=
  show_insert_soft_update env_resolving ⟨5⟩ wm_empty empty_workspace rfl rfl rfl

/-- Claim C3 counterexample: window 7 already lives in workspace 1 of the
focused monitor (a different workspace, same monitor). The claim says focus
switches there with no insertion; the code instead leaves the focused
workspace at index 0 and inserts a second copy of the window into it (the
snapshot now lists handle 7 twice). -/
theorem show_same_monitor_inserts_cex :
    (WindowManager.process_event env_resolving (.Show ⟨7⟩) wm_same_monitor).map
      (fun r =>
        (r.1.focused_monitor.map Monitor.focused_workspace_idx,
         r.1.focused_workspace.map fun ws => ws.contains_window 7, r.2)) =
      .ok (some 0, some true,
        [Effect.updateFocusedWorkspace false, Effect.persist [7, 7]]) := by decide

/-- Claim C3 (amended): the Show arm switches focus (and returns early,
inserting nothing) only when the monitor index of the found workspace differs
from the focused monitor index AND its workspace index differs from the
focused monitor's focused-workspace index; a window found on the same monitor
or under the same workspace index falls through to the insertion logic. -/
theorem show_switch_requires_both_indices_differ (env : Env) (w : Window)
    (wm : WindowManager) (i j : Nat) (m : Monitor)
    (hsw : wm.show_switch_to w.hwnd = some (i, j))
    (hm : wm.focused_monitor_idx ≠ i)
    (hfm : wm.focused_monitor = some m)
    (hj : m.focused_workspace_idx ≠ j) :
    dispatch_show env w wm =
      Except.map (fun wm2 => (wm2, ([] : List Effect), true))
        ((wm.focus_monitor i).bind fun wm1 => wm1.focus_workspace j) := by
  simp only [dispatch_show, show_switch_result, hsw, hfm, if_pos hm, if_pos hj]
  cases h1 : wm.focus_monitor i with
  | error e => simp [Except.map, Except.bind, h1]
  | ok wm1 =>
      cases h2 : wm1.focus_workspace j with
      | error e => simp [Except.map, Except.bind, h1, h2]
      | ok wm2 => simp [Except.map, Except.bind, h1, h2]

/-- Claim C3 witness: window 9 lives on monitor 1, workspace 1 while monitor
0, workspace 0 is focused - both indices differ, so the switch fires. -/
theorem show_switch_requires_both_indices_differ_witness :
    dispatch_show base_env ⟨9⟩ wm_other_monitor =
      Except.map (fun wm2 => (wm2, ([] : List Effect), true))
        ((wm_other_monitor.focus_monitor 1).bind fun wm1 => wm1.focus_workspace 1) :=
  show_switch_requires_both_indices_differ base_env ⟨9⟩ wm_other_monitor 1 1
    (monitor_of [empty_workspace]) rfl (by decide) rfl (by decide)

/-- Claim C4 counterexample: window 9 is not a valid OS window AND its handle
is in the programmatic-hide allow-list. The claim's condition (not-valid OR
(multi-window AND not-allow-listed)) holds, so it predicts removal plus a
soft update; the code's grouping ((not-valid OR multi-window) AND
not-allow-listed) is false, and the Hide arm changes nothing and emits
nothing. -/
theorem hide_invalid_allowlisted_cex :
    dispatch_hide env_hide_allowlisted ⟨9⟩ (wm_single 9) =
      .ok (wm_single 9, [], false) ∧
    env_hide_allowlisted.is_window 9 = false ∧
    env_hide_allowlisted.hidden_hwnds.contains 9 = true ∧
    ((wm_single 9).focused_workspace.map fun ws => ws.contains_window 9) =
      some true := by decide

/-- Claim C4 (amended): a Hide removes the window (followed by a soft update)
if and only if (the window is no longer a valid OS window OR its executable
is in the multi-window list) AND the handle is not in the programmatic-hide
allow-list; the allow-list blocks removal even for invalid windows. -/
theorem hide_removal_iff (env : Env) (w : Window) (wm : WindowManager)
    (ws : Workspace) (e : String) (hws : wm.focused_workspace = some ws)
    (hexe : env.exe w.hwnd = some e) :
    dispatch_hide env w wm =
      if ((!env.is_window w.hwnd || env.multi_window_exes.contains e) &&
          !env.hidden_hwnds.contains w.hwnd) then
        Except.map (fun wm' => (wm', [Effect.updateFocusedWorkspace false], false))
          ((wm.set_focused_workspace
              (ws.remove_window w.hwnd)).update_focused_workspace env false)
      else .ok (wm, [], false) := by
  cases hv : env.is_window w.hwnd with
  | true => simp [dispatch_hide, hv, hexe, hws]
  | false => simp [dispatch_hide, hv, hexe, hws]

/-- Claim C4 witness: window 3 is valid, reports firefox.exe (a default
multi-window executable) and is not allow-listed, so the condition holds and
the removal branch is taken. -/
theorem hide_removal_iff_witness :
    dispatch_hide env_hide_firefox ⟨3⟩ (wm_single 3) =
      if ((!env_hide_firefox.is_window 3 ||
           env_hide_firefox.multi_window_exes.contains "firefox.exe") &&
          !env_hide_firefox.hidden_hwnds.contains 3) then
        Except.map (fun wm' => (wm', [Effect.updateFocusedWorkspace false], false))
          (((wm_single 3).set_focused_workspace
              ((workspace_of [⟨[⟨3⟩]⟩] [rect0]).remove_window 3)).update_focused_workspace
            env_hide_firefox false)
      else .ok (wm_single 3, [], false) :=
  hide_removal_iff env_hide_firefox ⟨3⟩ (wm_single 3)
    (workspace_of [⟨[⟨3⟩]⟩] [rect0]) "firefox.exe" rfl rfl

/-- Claim C5 counterexample: a MouseCapture event is processed (not dropped
by the pause flag) yet returns right after reaping with an empty effect
trace - no known-handles snapshot is recomputed or handed to persistence,
where the claim says the snapshot step runs for every event kind including
MouseCapture. -/
theorem mouse_capture_skips_persist_cex :
    (WindowManager.process_event base_env (.MouseCapture ⟨3⟩) (wm_single 3)).map
      (fun r => has_persist_effect r.2) = .ok false ∧
    WindowManager.process_event base_env (.MouseCapture ⟨3⟩) (wm_single 3) =
      .ok (wm_single 3, []) := by decide

/-- Claim C5 (amended): the known-handles snapshot is recomputed over the
post-dispatch model and appended as the final persistence hand-off exactly
when the dispatch arm runs to completion - for every event kind other than
MouseCapture and other than the early returns (floating-window FocusChange /
MoveResizeEnd, and a Show focus switch), which skip it. -/
theorem persist_after_full_dispatch (env : Env) (event : WindowManagerEvent)
    (wm wm' : WindowManager) (effs : List Effect)
    (hmc : event.is_mouse_capture = false)
    (hd : dispatch env event wm = .ok (wm', effs, false)) :
    dispatch_phase env event wm =
      .ok (wm', effs ++ [Effect.persist wm'.known_hwnds]) := by
  simp [dispatch_phase, hmc, hd, Except.map]

/-- Claim C5 witness: a Hide event whose disambiguation says "ignore" still
reaches the snapshot step and persists the known handles. -/
theorem persist_after_full_dispatch_witness :
    dispatch_phase env_hide_allowlisted (.Hide ⟨9⟩) (wm_single 9) =
      .ok (wm_single 9, [] ++ [Effect.persist (wm_single 9).known_hwnds]) :=
  persist_after_full_dispatch env_hide_allowlisted (.Hide ⟨9⟩) (wm_single 9)
    (wm_single 9) [] rfl rfl

/-- Claim C6: while the pause flag is set, process_event acknowledges the
event (Ok) and returns the model unchanged, with no effects emitted and no
queueing of the event (the model holds no queue to put it in). -/
theorem paused_event_no_mutation (env : Env) (event : WindowManagerEvent)
    (wm : WindowManager) (hp : wm.is_paused = true) :
    WindowManager.process_event env event wm = .ok (wm, []) := by
  simp [WindowManager.process_event, hp]

/-- Claim C6 witness: a Show event against the paused fixture. -/
theorem paused_event_no_mutation_witness :
    WindowManager.process_event base_env (.Show ⟨1⟩) wm_paused =
      .ok (wm_paused, []) :=
  paused_event_no_mutation base_env (.Show ⟨1⟩) wm_paused rfl

/-- Claim C7 counterexample: on the spec's own numbers the border adjustment
yields {24,0,100,100}, not {0,0,100,100}, and the per-edge delta is
{24,0,0,0}, not zero on all four edges: the code adds the inset to left/top
(and subtracts it from right/bottom) instead of subtracting everywhere. -/
theorem border_adjust_claim_cex :
    adjust_for_border ⟨12, 0, 124, 112⟩ = ⟨24, 0, 100, 100⟩ ∧
    adjust_for_border ⟨12, 0, 124, 112⟩ ≠ ⟨0, 0, 100, 100⟩ ∧
    resize_delta ⟨0, 0, 100, 100⟩ (adjust_for_border ⟨12, 0, 124, 112⟩) =
      ⟨24, 0, 0, 0⟩ := by decide

/-- Claim C7 (amended): with pre-drag rectangle {0,0,100,100} and post-drag
raw rectangle {12,0,124,112}, the inset (left 12, top 0, right 24, bottom 12)
is added to left/top and subtracted from right/bottom, giving {24,0,100,100};
the delta is {24,0,0,0} - zero on the right and bottom components only - and
the event is still classified as a move, because the classification tests
only those two components: processing the full MoveResizeEnd event emits the
move branch's hard snap-back update and no resize command. -/
theorem border_adjust_move_classification :
    adjust_for_border ⟨12, 0, 124, 112⟩ = ⟨24, 0, 100, 100⟩ ∧
    resize_delta ⟨0, 0, 100, 100⟩ ⟨24, 0, 100, 100⟩ = ⟨24, 0, 0, 0⟩ ∧
    is_move ⟨24, 0, 0, 0⟩ = true ∧
    (WindowManager.process_event env_drag (.MoveResizeEnd ⟨11⟩) wm_drag).map
      (fun r => r.2) =
      .ok [Effect.updateFocusedWorkspace true, Effect.persist [11]] := by decide

/-- Claim C8: every operation the resize classification emits carries the
direction of a non-zero honored edge, the sizing obtained by doubling that
edge's delta and testing it with the per-edge comparator (> 0 for left/top,
< 0 for right/bottom; true gives Decrease, false Increase), and the absolute
doubled delta as magnitude. -/
theorem resize_op_sizing_of_member (r : Rect) (dir : OperationDirection)
    (sz : Sizing) (mag : Int)
    (h : (dir, sz, mag) ∈ mouse_resize_ops r) :
    r.edge_delta dir ≠ 0 ∧
    mag = ((r.edge_delta dir * 2).natAbs : Int) ∧
    (sz = Sizing.Decrease ↔
      (match dir with
       | .Left | .Up => 0 < r.edge_delta dir * 2
       | .Right | .Down => r.edge_delta dir * 2 < 0)) := by
  cases dir <;>
    · simp only [mouse_resize_ops, List.mem_append] at h
      split_ifs at h <;>
        simp_all [resize_op, Rect.edge_delta, bne_iff_ne] <;>
        omega

/-- Claim C8 witness: a left-edge delta of -10 doubles to -20, fails the > 0
comparison, and yields Increase on Left with magnitude 20. -/
theorem resize_op_sizing_of_member_witness :
    ((⟨-10, 0, 0, 0⟩ : Rect).edge_delta .Left ≠ 0) ∧
    (20 : Int) = (((⟨-10, 0, 0, 0⟩ : Rect).edge_delta .Left * 2).natAbs : Int) ∧
    (Sizing.Increase = Sizing.Decrease ↔
      0 < (⟨-10, 0, 0, 0⟩ : Rect).edge_delta .Left * 2) :=
  resize_op_sizing_of_member ⟨-10, 0, 0, 0⟩ .Left .Increase 20 (by decide)

/-- Claim C9: a Right-direction operation is emitted exactly when the right
delta is non-zero and the left delta is zero, and a Down-direction operation
exactly when the bottom delta is non-zero and the top delta is zero; so a
drag moving both left and right edges (or both top and bottom edges) drops
the right (respectively bottom) edge's contribution. -/
theorem resize_right_bottom_exclusivity (r : Rect) :
    ((∃ sz mag, (OperationDirection.Right, sz, mag) ∈ mouse_resize_ops r) ↔
      r.right ≠ 0 ∧ r.left = 0) ∧
    ((∃ sz mag, (OperationDirection.Down, sz, mag) ∈ mouse_resize_ops r) ↔
      r.bottom ≠ 0 ∧ r.top = 0) := by
  unfold mouse_resize_ops
  split_ifs <;> simp_all [resize_op, bne_iff_ne]

/-- Claim C10: a classified resize issues at most two directional resize
operations - at most one horizontal (Left or Right, never both) and at most
one vertical (Up or Down, never both). -/
theorem resize_ops_at_most_one_per_axis (r : Rect) :
    (mouse_resize_ops r).countP (fun op => direction_horizontal op.1) ≤ 1 ∧
    (mouse_resize_ops r).countP (fun op => direction_vertical op.1) ≤ 1 ∧
    (mouse_resize_ops r).length ≤ 2 := by
  unfold mouse_resize_ops
  split_ifs <;> simp_all [resize_op, direction_horizontal, direction_vertical]

end Komorebi
